import Mathlib

/-!
Verification of the alpaca-trading-bot grid engine against its
natural-language specification.

The definitions below are a shallow embedding of the Python sources:
  * `engine/grid.py`   — `GridState`, `current_step_usd`, `next_trigger_price`,
    `should_buy_now`, `on_buy_filled`, `should_sell_now`, `reset_group`;
  * `engine/risk.py`   — `RiskDecision`, `check_buy_allowed`;
  * `engine/engine.py` — the decision core of one iteration of `main`'s loop
    (`posReconcile`, `sellStep`, `buyLoop`, `tick`) and the grid-state
    persistence keys (`saveGrid`, `loadGrid`).

Prices and dollar amounts are modelled as exact rationals (`ℚ`); Python ints
are modelled as `Int`.  Python's floor division `//` is `Int.fdiv`.
-/

/-- From `engine/grid.py` (`GridState`): anchor of the current group, last
buy fill price, last grid rung reference, and completed-buy count. -/
structure GridState where
  anchor_price : Option ℚ
  last_buy_price : Option ℚ
  last_trigger_price : Option ℚ
  buy_count_in_group : Int
deriving Repr, DecidableEq

/-- The freshly-constructed grid state (`GridState()` with all defaults). -/
def GridState.empty : GridState :=
  { anchor_price := none, last_buy_price := none,
    last_trigger_price := none, buy_count_in_group := 0 }

/-- From `engine/grid.py` (`current_step_usd`): tiered step size in USD.
`tier_size <= 0` is replaced by 5; a negative count is treated as 0. -/
def current_step_usd (step_start step_increment : ℚ)
    (tier_size buy_count_in_group : Int) : ℚ :=
  let tier_size_i : Int := if 0 < tier_size then tier_size else 5
  let count : Int := if buy_count_in_group ≤ 0 then 0 else buy_count_in_group
  let tier_index : Int := Int.fdiv count tier_size_i
  step_start + step_increment * (tier_index : ℚ)

/-- From `engine/grid.py` (`next_trigger_price`): the next rung, one step
below `last_trigger_price`; `none` when there is no rung yet. -/
def next_trigger_price (gs : GridState)
    (step_start step_increment : ℚ) (tier_size : Int) : Option ℚ :=
  match gs.last_trigger_price with
  | none => none
  | some t =>
      some (t - current_step_usd step_start step_increment tier_size
        gs.buy_count_in_group)

/-- From `engine/grid.py` (`should_buy_now`): first buy is always allowed,
otherwise the price must be at or below the next rung. -/
def should_buy_now (price : ℚ) (gs : GridState)
    (step_start step_increment : ℚ) (tier_size : Int) : Bool :=
  match gs.last_trigger_price with
  | none => true
  | some _ =>
      match next_trigger_price gs step_start step_increment tier_size with
      | none => true
      | some nxt => decide (price ≤ nxt)

/-- From `engine/grid.py` (`on_buy_filled`): first buy sets anchor and rung
to the fill price; later buys advance the rung down by exactly one step
(computed from the count before the increment). -/
def on_buy_filled (fill_price : ℚ) (gs : GridState)
    (step_start step_increment : ℚ) (tier_size : Int) : GridState :=
  let anchor := match gs.anchor_price with
    | none => some fill_price
    | some a => some a
  match gs.last_trigger_price with
  | none =>
      { anchor_price := anchor,
        last_buy_price := some fill_price,
        last_trigger_price := some fill_price,
        buy_count_in_group := gs.buy_count_in_group + 1 }
  | some t =>
      let step := current_step_usd step_start step_increment tier_size
        gs.buy_count_in_group
      { anchor_price := anchor,
        last_buy_price := some fill_price,
        last_trigger_price := some (t - step),
        buy_count_in_group := gs.buy_count_in_group + 1 }

/-- From `engine/grid.py` (`should_sell_now`): sell when
`price >= anchor_price + sell_rise_usd`; never without an anchor. -/
def should_sell_now (price : ℚ) (gs : GridState) (sell_rise_usd : ℚ) : Bool :=
  match gs.anchor_price with
  | none => false
  | some a => decide (a + sell_rise_usd ≤ price)

/-- From `engine/grid.py` (`reset_group`): clear all four grid fields. -/
def reset_group (_gs : GridState) : GridState := GridState.empty

/-- From `engine/risk.py` (`RiskDecision`). -/
structure RiskDecision where
  ok : Bool
  reason : String
deriving Repr, DecidableEq

/-- From `engine/risk.py` (`check_buy_allowed`).  The time-window arguments
`now_min`, `trade_start_et`, `trade_end_et` are accepted but, exactly as in
the source ("currently not used by this function"), never inspected. -/
def check_buy_allowed (kill_switch : Bool)
    (buys_this_tick max_buys_per_tick buys_today max_buys_per_day
      order_qty : Int)
    (est_price max_dollars_per_buy : ℚ)
    (current_pos_qty max_position_qty : Int)
    (_now_min : Int) (_trade_start_et _trade_end_et : Option Int) :
    RiskDecision :=
  if kill_switch then ⟨false, "KILL_SWITCH"⟩
  else if 0 < max_buys_per_tick ∧ max_buys_per_tick ≤ buys_this_tick then
    ⟨false, "MAX_BUYS_PER_TICK"⟩
  else if 0 < max_buys_per_day ∧ max_buys_per_day ≤ buys_today then
    ⟨false, "MAX_BUYS_PER_DAY"⟩
  else if 0 < max_position_qty ∧
      max_position_qty < current_pos_qty + order_qty then
    ⟨false, "MAX_POSITION_QTY"⟩
  else if 0 < max_dollars_per_buy ∧
      max_dollars_per_buy < est_price * (order_qty : ℚ) then
    ⟨false, "MAX_DOLLARS_PER_BUY"⟩
  else ⟨true, "OK"⟩

/-- The slice of `engine/config.py` (`Config`) that the tick decision logic
reads.  `db_configured` models `conn is not None` in `engine/engine.py`
(`DATABASE_URL` set and connected).  The trading-hours window strings are
modelled as already-parsed minutes-of-day. -/
structure Config where
  dry_run : Bool
  kill_switch : Bool
  order_qty : Int
  max_buys_per_tick : Int
  max_buys_per_day : Int
  max_dollars_per_buy : ℚ
  max_position_qty : Int
  trade_start_et : Option Int
  trade_end_et : Option Int
  grid_step_start_usd : ℚ
  grid_step_increment_usd : ℚ
  grid_tier_size : Int
  sell_rise_usd : ℚ
  db_configured : Bool
  standby_only : Bool
deriving Repr, DecidableEq

/-- Result of `get_position_details` in `engine/engine.py`: `ok qty` models a
reliable read (`ok=True`, including the "position does not exist" flat case
which returns `0, ..., True`), `err` models `ok=False` (lookup failed). -/
inductive PosRead where
  | ok (qty : Int)
  | err
deriving Repr, DecidableEq

/-- The mutable engine-loop variables of `main` in `engine/engine.py` that
the decision core reads and writes across ticks. -/
structure EngineSt where
  is_leader : Bool
  gs : GridState
  buys_today : Int
  buy_count_total : Int
deriving Repr, DecidableEq

/-- The external observations one iteration of `main`'s `while True` loop
makes: the leader-lock acquisition outcome, the market clock, the ET
day-rollover comparison, the latest price, and the position read. -/
structure TickInput where
  lock_acquired : Bool
  market_is_open : Bool
  now_min : Int
  day_changed : Bool
  price : Option ℚ
  pos : PosRead
deriving Repr, DecidableEq

inductive Side where
  | buy
  | sell
deriving Repr, DecidableEq

/-- A call to `submit_market_buy` / `submit_market_sell` (an actual order
submission to the broker; dry-run journal writes are not orders). -/
structure Order where
  side : Side
  qty : Int
deriving Repr, DecidableEq

/-- `engine/engine.py` lines 446-452: if the confirmed live position is
`<= 0` while any grid memory is present, `reset_group` the grid at once. -/
def posReconcile (qty : Int) (gs : GridState) : GridState :=
  if qty ≤ 0 ∧ (gs.anchor_price.isSome ∨ gs.last_buy_price.isSome ∨
      0 < gs.buy_count_in_group) then
    reset_group gs
  else gs

/-- Result of the sell branch: grid state, `pos_qty` afterwards, orders. -/
structure SellRes where
  gs : GridState
  pos_qty : Int
  orders : List Order
deriving Repr, DecidableEq

/-- `engine/engine.py` lines 477-529 (the `--- SELL logic ---` branch):
when holding a position and `should_sell_now`, sell the entire live
position (`sell_qty = int(pos_qty)`) unless blocked by the standby guard;
a dry run only journals.  Either way the group is reset and `pos_qty = 0`. -/
def sellStep (cfg : Config) (leader : Bool) (p : ℚ) (qty : Int)
    (gs : GridState) : SellRes :=
  if 0 < qty ∧ should_sell_now p gs cfg.sell_rise_usd then
    if ¬cfg.dry_run ∧ cfg.db_configured ∧ ¬leader then
      ⟨gs, qty, []⟩
    else
      let sell_qty := qty
      if cfg.dry_run then ⟨reset_group gs, 0, []⟩
      else ⟨reset_group gs, 0, [⟨Side.sell, sell_qty⟩]⟩
  else ⟨gs, qty, []⟩

/-- Result of the buy loop: grid state, `buys_today`, `buy_count_total`,
orders. -/
structure BuyRes where
  gs : GridState
  buys_today : Int
  buy_count_total : Int
  orders : List Order
deriving Repr, DecidableEq

/-- `engine/engine.py` lines 531-661 (the `--- BUY logic ---` `while` loop):
while the kill switch is off and fewer than `max_buys_per_tick` buys have
executed this tick, check the grid gate, then the risk gate, then the
standby guard; a passing iteration bumps the counters, submits (unless dry
run) and applies `on_buy_filled`.  The loop executes at most
`max_buys_per_tick` buys, so fuel `max_buys_per_tick.toNat + 1` is exact. -/
def buyLoop (cfg : Config) (leader : Bool) (now_min : Int) (p : ℚ)
    (pos_qty : Int) :
    Nat → GridState → Int → Int → Int → BuyRes
  | 0, gs, bt, total, _ => ⟨gs, bt, total, []⟩
  | Nat.succ fuel, gs, bt, total, btick =>
    if cfg.kill_switch ∨ cfg.max_buys_per_tick ≤ btick then
      ⟨gs, bt, total, []⟩
    else if ¬(should_buy_now p gs cfg.grid_step_start_usd
        cfg.grid_step_increment_usd cfg.grid_tier_size) then
      ⟨gs, bt, total, []⟩
    else
      let d := check_buy_allowed cfg.kill_switch btick cfg.max_buys_per_tick
        bt cfg.max_buys_per_day cfg.order_qty p cfg.max_dollars_per_buy
        (if pos_qty ≤ 0 then 0 else pos_qty) cfg.max_position_qty
        now_min cfg.trade_start_et cfg.trade_end_et
      if ¬d.ok then ⟨gs, bt, total, []⟩
      else if ¬cfg.dry_run ∧ cfg.db_configured ∧ ¬leader then
        ⟨gs, bt, total, []⟩
      else
        let gs' := on_buy_filled p gs cfg.grid_step_start_usd
          cfg.grid_step_increment_usd cfg.grid_tier_size
        let ords : List Order :=
          if cfg.dry_run then [] else [⟨Side.buy, cfg.order_qty⟩]
        let rest := buyLoop cfg leader now_min p pos_qty fuel gs'
          (bt + 1) (total + 1) (btick + 1)
        ⟨rest.gs, rest.buys_today, rest.buy_count_total, ords ++ rest.orders⟩

/-- One iteration of `main`'s `while True` loop in `engine/engine.py`
(lines 404-686), restricted to its decision core: leader re-acquisition and
the standby `continue`, ET day rollover, the price-missing and
position-error tick skips, `posReconcile`, the market-closed `continue`,
`sellStep`, then `buyLoop`.  Returns the next loop state and every order
submitted during the tick. -/
def tick (cfg : Config) (st : EngineSt) (inp : TickInput) :
    EngineSt × List Order :=
  let leader := if cfg.db_configured ∧ ¬cfg.standby_only then
    (st.is_leader || inp.lock_acquired) else st.is_leader
  if cfg.db_configured ∧ ¬cfg.standby_only ∧ ¬leader then
    ({ st with is_leader := leader }, [])
  else
    let buys_today0 := if inp.day_changed then 0 else st.buys_today
    match inp.price with
    | none => ({ st with is_leader := leader, buys_today := buys_today0 }, [])
    | some p =>
      match inp.pos with
      | PosRead.err =>
          ({ st with is_leader := leader, buys_today := buys_today0 }, [])
      | PosRead.ok qty =>
        let gs1 := posReconcile qty st.gs
        if ¬inp.market_is_open then
          ({ st with
              is_leader := leader
              buys_today := buys_today0
              gs := gs1 }, [])
        else
          let s := sellStep cfg leader p qty gs1
          let b := buyLoop cfg leader inp.now_min p s.pos_qty
            (cfg.max_buys_per_tick.toNat + 1) s.gs buys_today0
            st.buy_count_total 0
          ({ is_leader := leader, gs := b.gs, buys_today := b.buys_today,
             buy_count_total := b.buy_count_total },
           s.orders ++ b.orders)

/-- The persisted state document keys that `main` reads and writes for the
grid (`engine/engine.py` lines 380-384 and 669-679), including the legacy
keys that loading falls back to and saving deletes. -/
structure PersistedState where
  grid_anchor_price : Option ℚ
  grid_last_buy_price : Option ℚ
  grid_last_trigger : Option ℚ
  grid_buy_count_in_group : Option Int
  grid_tier_buys_used : Option Int
deriving Repr, DecidableEq

/-- Python's `x or y` on an optional float key: `None` and `0.0` are falsy. -/
def pyOrQ (a b : Option ℚ) : Option ℚ :=
  match a with
  | some v => if v = 0 then b else some v
  | none => b

/-- `int(state.get("grid_buy_count_in_group", 0) or
state.get("grid_tier_buys_used", 0) or 0)` — `0` is falsy. -/
def loadCount (a b : Option Int) : Int :=
  let x := a.getD 0
  if x ≠ 0 then x
  else
    let y := b.getD 0
    if y ≠ 0 then y else 0

/-- `engine/engine.py` lines 380-384: the `GridState` reconstructed at boot.
`last_trigger_price` is not restored (the constructor argument is absent),
and the legacy `grid_last_trigger` value only feeds `last_buy_price`. -/
def loadGrid (st : PersistedState) : GridState :=
  { anchor_price := st.grid_anchor_price,
    last_buy_price := pyOrQ st.grid_last_buy_price st.grid_last_trigger,
    last_trigger_price := none,
    buy_count_in_group :=
      loadCount st.grid_buy_count_in_group st.grid_tier_buys_used }

/-- `engine/engine.py` lines 669-679: the grid keys written each tick, with
the legacy keys (`grid_last_trigger`, `grid_tier_buys_used`, ...) popped. -/
def saveGrid (gs : GridState) (st : PersistedState) : PersistedState :=
  { st with
    grid_anchor_price := gs.anchor_price,
    grid_last_buy_price := gs.last_buy_price,
    grid_buy_count_in_group := some gs.buy_count_in_group,
    grid_last_trigger := none,
    grid_tier_buys_used := none }

/-- Modelled from the spec: "outside configured trading-hours window
(trade_start_et..trade_end_et)".  The engine source contains no such check;
this predicate exists only to state the spec's claim about it.  Times are
minutes of the ET day; an unset bound means no window is configured. -/
def outside_window (now_min : Int)
    (trade_start_et trade_end_et : Option Int) : Bool :=
  match trade_start_et, trade_end_et with
  | some s, some e => decide (now_min < s) || decide (e < now_min)
  | _, _ => false

/-- Modelled from the spec: `owned_qty`, "shares this strategy instance
believes it purchased and has not yet sold".  No such field exists in the
source `GridState`; the closest derivable reading — used only to state the
spec's claims — is the shares the group's completed buys account for,
`buy_count_in_group * order_qty`. -/
def specOwnedQty (gs : GridState) (order_qty : Int) : Int :=
  gs.buy_count_in_group * order_qty

/-- A configuration with the kill switch on (suppressing the buy loop), no
database, default grid parameters. -/
def cfgKill : Config :=
  { dry_run := true, kill_switch := true, order_qty := 1,
    max_buys_per_tick := 1, max_buys_per_day := 0, max_dollars_per_buy := 0,
    max_position_qty := 0, trade_start_et := none, trade_end_et := none,
    grid_step_start_usd := 1, grid_step_increment_usd := 1,
    grid_tier_size := 5, sell_rise_usd := 2, db_configured := false,
    standby_only := false }

/-- A mid-group grid state: anchor 100, three completed buys, rung at 97. -/
def gsMid : GridState :=
  { anchor_price := some 100, last_buy_price := some 97,
    last_trigger_price := some 97, buy_count_in_group := 3 }

/-- Engine state holding `gsMid` as leader. -/
def stMid : EngineSt :=
  { is_leader := true, gs := gsMid, buys_today := 0, buy_count_total := 3 }

/-- A tick whose position read is a single confirmed zero. -/
def inpZeroRead : TickInput :=
  { lock_acquired := false, market_is_open := true, now_min := 600,
    day_changed := false, price := some 100, pos := PosRead.ok 0 }

/-- A tick whose position read errors out. -/
def inpErrRead : TickInput :=
  { lock_acquired := false, market_is_open := true, now_min := 600,
    day_changed := false, price := some 100, pos := PosRead.err }

/-- Live, database-backed configuration (not dry run). -/
def cfgLiveDb : Config :=
  { dry_run := false, kill_switch := false, order_qty := 1,
    max_buys_per_tick := 1, max_buys_per_day := 0, max_dollars_per_buy := 0,
    max_position_qty := 0, trade_start_et := none, trade_end_et := none,
    grid_step_start_usd := 1, grid_step_increment_usd := 1,
    grid_tier_size := 5, sell_rise_usd := 2, db_configured := true,
    standby_only := false }

/-- A grid state after two completed buys: anchor 100, rung at 99. -/
def gsTwoBuys : GridState :=
  { anchor_price := some 100, last_buy_price := some 99,
    last_trigger_price := some 99, buy_count_in_group := 2 }

/-- Engine state on standby (no leader lock) with an empty grid. -/
def stStandby : EngineSt :=
  { is_leader := false, gs := GridState.empty, buys_today := 0,
    buy_count_total := 0 }

/-- A tick input that fails to acquire the leader lock. -/
def inpNoLock : TickInput :=
  { lock_acquired := false, market_is_open := true, now_min := 600,
    day_changed := false, price := some 100, pos := PosRead.ok 0 }

/-- A grid state after five completed buys of one share each. -/
def gsFiveBuys : GridState :=
  { anchor_price := some 100, last_buy_price := some 96,
    last_trigger_price := some 96, buy_count_in_group := 5 }

/-- Engine state holding `gsFiveBuys` as leader. -/
def stFiveBuys : EngineSt :=
  { is_leader := true, gs := gsFiveBuys, buys_today := 5,
    buy_count_total := 5 }

/-- A tick whose confirmed live position (1 share) is below the five shares
the strategy's buys account for, at a price that triggers nothing. -/
def inpLiveOne : TickInput :=
  { lock_acquired := false, market_is_open := true, now_min := 600,
    day_changed := false, price := some 100, pos := PosRead.ok 1 }

/-- Live no-database configuration with the kill switch on. -/
def cfgLiveKill : Config :=
  { dry_run := false, kill_switch := true, order_qty := 1,
    max_buys_per_tick := 1, max_buys_per_day := 0, max_dollars_per_buy := 0,
    max_position_qty := 0, trade_start_et := none, trade_end_et := none,
    grid_step_start_usd := 1, grid_step_increment_usd := 1,
    grid_tier_size := 5, sell_rise_usd := 2, db_configured := false,
    standby_only := false }

/-- Engine state holding `gsTwoBuys` as leader. -/
def stTwoBuys : EngineSt :=
  { is_leader := true, gs := gsTwoBuys, buys_today := 2,
    buy_count_total := 2 }

/-- A tick at price 102 (above the sell target 100 + 2) with a confirmed
live position of 5 shares. -/
def inpSellFive : TickInput :=
  { lock_acquired := false, market_is_open := true, now_min := 600,
    day_changed := false, price := some 102, pos := PosRead.ok 5 }

/-- A zero-step configuration (`GRID_STEP_START_USD=0`,
`GRID_STEP_INCREMENT_USD=0`), dry run, no database. -/
def cfgZeroStep : Config :=
  { dry_run := true, kill_switch := false, order_qty := 1,
    max_buys_per_tick := 1, max_buys_per_day := 0, max_dollars_per_buy := 0,
    max_position_qty := 0, trade_start_et := none, trade_end_et := none,
    grid_step_start_usd := 0, grid_step_increment_usd := 0,
    grid_tier_size := 5, sell_rise_usd := 2, db_configured := false,
    standby_only := false }

/-- A fresh engine state, leader, empty grid. -/
def stFresh : EngineSt :=
  { is_leader := true, gs := GridState.empty, buys_today := 0,
    buy_count_total := 0 }

/-- First fetch of the 100.00 bar (engine still flat at the broker). -/
def inpBarFirst : TickInput :=
  { lock_acquired := false, market_is_open := true, now_min := 600,
    day_changed := false, price := some 100, pos := PosRead.ok 0 }

/-- Replay of the same 100.00 bar (one share now held). -/
def inpBarReplay : TickInput :=
  { lock_acquired := false, market_is_open := true, now_min := 600,
    day_changed := false, price := some 100, pos := PosRead.ok 1 }

/-- The engine state after processing the 100.00 bar once. -/
def stAfterFirstBar : EngineSt := (tick cfgZeroStep stFresh inpBarFirst).1

/-- A grid state after a single completed buy at 100. -/
def gsOneBuy : GridState :=
  { anchor_price := some 100, last_buy_price := some 100,
    last_trigger_price := some 100, buy_count_in_group := 1 }

/-- `current_step_usd` is positive whenever the base step is positive and
the increment non-negative. -/
theorem current_step_usd_pos (ss si : ℚ) (ts n : Int)
    (hss : 0 < ss) (hsi : 0 ≤ si) : 0 < current_step_usd ss si ts n := by
  simp only [current_step_usd]
  have hti : (0:Int) < (if 0 < ts then ts else 5) := by split <;> omega
  have hc : (0:Int) ≤ (if n ≤ 0 then 0 else n) := by split <;> omega
  have hfd : (0:Int) ≤
      Int.fdiv (if n ≤ 0 then 0 else n) (if 0 < ts then ts else 5) :=
    Int.fdiv_nonneg hc (le_of_lt hti)
  have h2 : (0:ℚ) ≤ si *
      ((Int.fdiv (if n ≤ 0 then 0 else n) (if 0 < ts then ts else 5) : Int) : ℚ) := by
    apply mul_nonneg hsi
    exact_mod_cast hfd
  linarith

/-- `current_step_usd` is monotone in the completed-buy count when the
increment is non-negative. -/
theorem current_step_usd_mono (ss si : ℚ) (ts : Int) (hsi : 0 ≤ si)
    {n m : Int} (h : n ≤ m) :
    current_step_usd ss si ts n ≤ current_step_usd ss si ts m := by
  simp only [current_step_usd]
  have hti : (0:Int) < (if 0 < ts then ts else 5) := by split <;> omega
  have hcount : (if n ≤ 0 then 0 else n) ≤ (if m ≤ 0 then 0 else m) := by
    split <;> split <;> omega
  have hfd : Int.fdiv (if n ≤ 0 then 0 else n) (if 0 < ts then ts else 5) ≤
      Int.fdiv (if m ≤ 0 then 0 else m) (if 0 < ts then ts else 5) := by
    rw [Int.fdiv_eq_ediv _ (le_of_lt hti), Int.fdiv_eq_ediv _ (le_of_lt hti)]
    exact Int.ediv_le_ediv hti hcount
  have hq : ((Int.fdiv (if n ≤ 0 then 0 else n) (if 0 < ts then ts else 5) : Int) : ℚ) ≤
      ((Int.fdiv (if m ≤ 0 then 0 else m) (if 0 < ts then ts else 5) : Int) : ℚ) := by
    exact_mod_cast hfd
  have := mul_le_mul_of_nonneg_left hq hsi
  linarith

/-- Any order the sell branch emits is a sell of the full live quantity,
only in live mode, and never while standby with a shared database. -/
theorem sellStep_mem_orders {cfg : Config} {leader : Bool} {p : ℚ}
    {qty : Int} {gs : GridState} {o : Order}
    (ho : o ∈ (sellStep cfg leader p qty gs).orders) :
    o = ⟨Side.sell, qty⟩ ∧ cfg.dry_run = false ∧
      ¬(cfg.db_configured = true ∧ leader = false) := by
  unfold sellStep at ho
  split_ifs at ho with h1 h2 h3
  all_goals simp only [List.mem_cons, List.not_mem_nil, or_false] at ho
  subst ho
  refine ⟨rfl, by simp_all, ?_⟩
  rintro ⟨hdb2, hlf2⟩
  exact h2 ⟨by simp_all, hdb2, by simp [hlf2]⟩

/-- Any order the buy loop emits is a buy of `order_qty`, only in live mode,
and never while standby with a shared database. -/
theorem buyLoop_mem_orders {cfg : Config} {leader : Bool} {now_min : Int}
    {p : ℚ} {pos_qty : Int} {fuel : Nat} {gs : GridState}
    {bt total btick : Int} {o : Order}
    (ho : o ∈ (buyLoop cfg leader now_min p pos_qty fuel gs bt total btick).orders) :
    o = ⟨Side.buy, cfg.order_qty⟩ ∧ cfg.dry_run = false ∧
      ¬(cfg.db_configured = true ∧ leader = false) := by
  induction fuel generalizing gs bt total btick with
  | zero => simp [buyLoop] at ho
  | succ fuel ih =>
    unfold buyLoop at ho
    dsimp only at ho
    split_ifs at ho
    all_goals simp only [List.nil_append, List.cons_append, List.mem_cons,
      List.mem_append, List.not_mem_nil, false_or, or_false] at ho
    all_goals try exact ih ho
    all_goals rcases ho with rfl | ho
    all_goals try exact ih ho
    all_goals refine ⟨rfl, by simp_all, ?_⟩
    all_goals rintro ⟨hdb2, hlf2⟩
    all_goals
      apply ‹¬(¬cfg.dry_run = true ∧ cfg.db_configured = true ∧ ¬leader = true)›
    all_goals exact ⟨by simp_all, hdb2, by simp [hlf2]⟩

/-- Any order a tick submits comes from a tick whose position read was a
confirmed `ok q`; it is either a sell of exactly `q` or a buy of
`order_qty`, only in live mode, and never while the process has a shared
database and ends the tick without leadership. -/
theorem tick_mem_orders {cfg : Config} {st : EngineSt} {inp : TickInput}
    {o : Order} (ho : o ∈ (tick cfg st inp).2) :
    ∃ q, inp.pos = PosRead.ok q ∧
      (o = ⟨Side.sell, q⟩ ∨ o = ⟨Side.buy, cfg.order_qty⟩) ∧
      cfg.dry_run = false ∧
      ¬(cfg.db_configured = true ∧ (tick cfg st inp).1.is_leader = false) := by
  obtain ⟨la, mo, nm, dc, pr, po⟩ := inp
  cases pr with
  | none =>
    unfold tick at ho
    dsimp only at ho
    split_ifs at ho <;> simp at ho
  | some p =>
    cases po with
    | err =>
      unfold tick at ho
      dsimp only at ho
      split_ifs at ho <;> simp at ho
    | ok q =>
      unfold tick at ho ⊢
      dsimp only at ho ⊢
      split_ifs at ho ⊢
      all_goals first
      | (refine ⟨q, rfl, ?_⟩
         rw [List.mem_append] at ho
         rcases ho with hs | hb
         · obtain ⟨heq, hdry, hstand⟩ := sellStep_mem_orders hs
           exact ⟨Or.inl heq, hdry, by simpa using hstand⟩
         · obtain ⟨heq, hdry, hstand⟩ := buyLoop_mem_orders hb
           exact ⟨Or.inr heq, hdry, by simpa using hstand⟩)
      | simp at ho

/-- C1 (corrected): an erroring (ambiguous) position read never resets the
grid — the tick leaves the grid state unchanged and submits no orders — but
a SINGLE confirmed read with qty ≤ 0 while any grid memory is present
resets the grid immediately; no second consecutive zero read is required. -/
theorem C1_single_confirmed_zero_resets (cfg : Config) (st : EngineSt)
    (inp : TickInput) (q : Int) (gs : GridState) :
    (inp.pos = PosRead.err →
      (tick cfg st inp).1.gs = st.gs ∧ (tick cfg st inp).2 = []) ∧
    (q ≤ 0 →
      (gs.anchor_price.isSome ∨ gs.last_buy_price.isSome ∨
        0 < gs.buy_count_in_group) →
      posReconcile q gs = GridState.empty) := by
  constructor
  · intro hpos
    obtain ⟨la, mo, nm, dc, pr, po⟩ := inp
    simp only at hpos
    subst hpos
    cases pr with
    | none =>
      unfold tick
      dsimp only
      split_ifs <;> exact ⟨rfl, rfl⟩
    | some p =>
      unfold tick
      dsimp only
      split_ifs <;> exact ⟨rfl, rfl⟩
  · intro hq hmem
    unfold posReconcile
    rw [if_pos ⟨hq, hmem⟩]
    rfl

/-- C1 counterexample: from a state with three completed buys, the very
first position read of the trace — a single confirmed zero, with no
preceding zero read — already resets the grid state to FLAT, contradicting
the claim that only two consecutive confirmed zero reads do. -/
theorem C1_counterexample :
    inpZeroRead.pos = PosRead.ok 0 ∧ stMid.gs ≠ GridState.empty ∧
    (tick cfgKill stMid inpZeroRead).1.gs = GridState.empty := by
  refine ⟨rfl, ?_, ?_⟩
  · simp [stMid, gsMid, GridState.empty]
  · norm_num [tick, posReconcile, sellStep, buyLoop, should_sell_now,
      should_buy_now, reset_group, GridState.empty, cfgKill, stMid,
      inpZeroRead, gsMid]

/-- Witness for `C1_single_confirmed_zero_resets` at concrete inputs. -/
theorem C1_witness :
    (tick cfgKill stMid inpErrRead).1.gs = stMid.gs ∧
    posReconcile 0 gsMid = GridState.empty :=
  ⟨((C1_single_confirmed_zero_resets cfgKill stMid inpErrRead 0 gsMid).1
      rfl).1,
   (C1_single_confirmed_zero_resets cfgKill stMid inpErrRead 0 gsMid).2
     (by norm_num) (by norm_num [gsMid])⟩

/-- C2 (corrected): when the sell condition fires in live mode with the
leader lock held (or no shared database), the engine submits a sell of the
ENTIRE live position quantity — not `min(owned_qty, livePositionQty)` —
and resets every `GridState` field to FLAT. -/
theorem C2_sell_liquidates_entire_position (cfg : Config) (leader : Bool)
    (p : ℚ) (qty : Int) (gs : GridState)
    (hq : 0 < qty) (hs : should_sell_now p gs cfg.sell_rise_usd = true)
    (hdry : cfg.dry_run = false)
    (hl : cfg.db_configured = false ∨ leader = true) :
    sellStep cfg leader p qty gs =
      ⟨GridState.empty, 0, [⟨Side.sell, qty⟩]⟩ := by
  unfold sellStep
  rw [if_pos ⟨hq, hs⟩]
  have hstand : ¬(¬cfg.dry_run = true ∧ cfg.db_configured = true ∧
      ¬leader = true) := by
    rcases hl with h | h <;> simp [h, hdry]
  rw [if_neg hstand, if_neg (by simp [hdry])]
  rfl

/-- C2 counterexample: with two completed one-share buys (the strategy's
buys account for 2 shares) and a live position of 5 shares, the fired sell
submits 5 shares, not `min(2, 5) = 2`. -/
theorem C2_counterexample :
    (sellStep cfgLiveDb true 102 5 gsTwoBuys).orders = [⟨Side.sell, 5⟩] ∧
    specOwnedQty gsTwoBuys cfgLiveDb.order_qty = 2 ∧
    min (specOwnedQty gsTwoBuys cfgLiveDb.order_qty) 5 = 2 ∧
    (5:Int) ≠ 2 := by
  refine ⟨?_, ?_, ?_, by norm_num⟩
  · norm_num [sellStep, should_sell_now, reset_group, cfgLiveDb, gsTwoBuys]
  · norm_num [specOwnedQty, gsTwoBuys, cfgLiveDb]
  · norm_num [specOwnedQty, gsTwoBuys, cfgLiveDb]

/-- Witness for `C2_sell_liquidates_entire_position` at concrete inputs. -/
theorem C2_witness :
    sellStep cfgLiveDb true 102 5 gsTwoBuys =
      ⟨GridState.empty, 0, [⟨Side.sell, 5⟩]⟩ :=
  C2_sell_liquidates_entire_position cfgLiveDb true 102 5 gsTwoBuys
    (by norm_num) (by norm_num [should_sell_now, gsTwoBuys, cfgLiveDb]) rfl
    (Or.inr rfl)

/-- C3 (corrected): the engine tracks no owned quantity and performs no
clamp; the quantity any sell order carries is exactly the live
broker-reported quantity of that tick's confirmed position read — hence a
sell never exceeds the live position. -/
theorem C3_sell_orders_carry_live_qty (cfg : Config) (st : EngineSt)
    (inp : TickInput) (q : Int) (o : Order)
    (hpos : inp.pos = PosRead.ok q) (ho : o ∈ (tick cfg st inp).2)
    (hside : o.side = Side.sell) : o.qty = q := by
  obtain ⟨q', hq', ho', _, _⟩ := tick_mem_orders ho
  rw [hpos] at hq'
  injection hq' with hqq
  subst hqq
  rcases ho' with rfl | rfl
  · rfl
  · simp at hside

/-- C3 counterexample: with five completed one-share buys but a live
position of only 1 share, a tick leaves `buy_count_in_group` at 5 — the
spec's owned quantity stays 5 > 1 and is never clamped down to the live
quantity. -/
theorem C3_counterexample :
    inpLiveOne.pos = PosRead.ok 1 ∧
    specOwnedQty (tick cfgKill stFiveBuys inpLiveOne).1.gs
      cfgKill.order_qty = 5 ∧
    ¬(specOwnedQty (tick cfgKill stFiveBuys inpLiveOne).1.gs
      cfgKill.order_qty ≤ 1) := by
  refine ⟨rfl, ?_, ?_⟩ <;>
  norm_num [specOwnedQty, tick, posReconcile, sellStep, buyLoop,
    should_sell_now, reset_group, cfgKill, stFiveBuys, inpLiveOne, gsFiveBuys]

/-- Witness for `C3_sell_orders_carry_live_qty` at concrete inputs. -/
theorem C3_witness :
    (⟨Side.sell, 5⟩ : Order) ∈ (tick cfgLiveKill stTwoBuys inpSellFive).2 ∧
    (Order.mk Side.sell 5).qty = 5 := by
  have hmem : (⟨Side.sell, 5⟩ : Order) ∈
      (tick cfgLiveKill stTwoBuys inpSellFive).2 := by
    norm_num [tick, posReconcile, sellStep, buyLoop, should_sell_now,
      reset_group, cfgLiveKill, stTwoBuys, inpSellFive, gsTwoBuys]
  exact ⟨hmem, C3_sell_orders_carry_live_qty cfgLiveKill stTwoBuys
    inpSellFive 5 ⟨Side.sell, 5⟩ rfl hmem rfl⟩

/-- C4 (corrected): `check_buy_allowed` never evaluates the trading-hours
window — its result is entirely independent of the time arguments, so a
call outside the window is not denied for that reason; the actual second
check in its fixed order is the per-tick buy cap. -/
theorem C4_hours_check_absent (k : Bool)
    (bt mbt bd mbd oq : Int) (ep mdpb : ℚ) (cpq mpq : Int)
    (n1 n2 : Int) (s1 e1 s2 e2 : Option Int) :
    check_buy_allowed k bt mbt bd mbd oq ep mdpb cpq mpq n1 s1 e1 =
      check_buy_allowed k bt mbt bd mbd oq ep mdpb cpq mpq n2 s2 e2 ∧
    (k = false → 0 < mbt → mbt ≤ bt →
      check_buy_allowed k bt mbt bd mbd oq ep mdpb cpq mpq n1 s1 e1 =
        ⟨false, "MAX_BUYS_PER_TICK"⟩) := by
  refine ⟨rfl, ?_⟩
  intro hk h1 h2
  unfold check_buy_allowed
  rw [if_neg (by simp [hk]), if_pos ⟨h1, h2⟩]

/-- C4 counterexample: at 03:20 ET, far outside a 09:30-16:00 window, the
risk gate still returns Allow — it is not denied and in particular not for
the trading-hours reason. -/
theorem C4_counterexample :
    outside_window 200 (some 570) (some 960) = true ∧
    check_buy_allowed false 0 1 0 0 1 100 0 0 0 200 (some 570) (some 960) =
      ⟨true, "OK"⟩ := by
  constructor
  · norm_num [outside_window]
  · norm_num [check_buy_allowed]

/-- Witness for `C4_hours_check_absent` at concrete inputs. -/
theorem C4_witness :
    check_buy_allowed false 3 1 0 0 1 100 0 0 0 600 (some 570) (some 960) =
      ⟨false, "MAX_BUYS_PER_TICK"⟩ :=
  (C4_hours_check_absent false 3 1 0 0 1 100 0 0 0 600 0 (some 570)
    (some 960) none none).2 rfl (by norm_num) (by norm_num)

/-- C5 (confirmed): a process with a shared database that does not hold the
leader lock at the end of its acquisition attempt submits no orders during
the tick; hence among any collection of database-backed processes of which
at most one ends its tick as leader, at most one submits any order. -/
theorem C5_leader_exclusive_submission :
    (∀ (cfg : Config) (st : EngineSt) (inp : TickInput),
      cfg.db_configured = true → (tick cfg st inp).1.is_leader = false →
      (tick cfg st inp).2 = []) ∧
    (∀ ps : List (Config × EngineSt × TickInput),
      (∀ x ∈ ps, x.1.db_configured = true) →
      ps.countP (fun x => (tick x.1 x.2.1 x.2.2).1.is_leader) ≤ 1 →
      ps.countP (fun x => !(tick x.1 x.2.1 x.2.2).2.isEmpty) ≤ 1) := by
  have part1 : ∀ (cfg : Config) (st : EngineSt) (inp : TickInput),
      cfg.db_configured = true → (tick cfg st inp).1.is_leader = false →
      (tick cfg st inp).2 = [] := by
    intro cfg st inp hdb hl
    by_contra hne
    obtain ⟨o, ho⟩ := List.exists_mem_of_ne_nil _ hne
    obtain ⟨q, _, _, _, hstand⟩ := tick_mem_orders ho
    exact hstand ⟨hdb, hl⟩
  refine ⟨part1, ?_⟩
  intro ps hdb hle
  refine le_trans (List.countP_mono_left ?_) hle
  intro x hx hsub
  by_contra hlf
  have hnil : (tick x.1 x.2.1 x.2.2).2 = [] :=
    part1 x.1 x.2.1 x.2.2 (hdb x hx) (by simpa using hlf)
  simp [hnil] at hsub

/-- Witness for `C5_leader_exclusive_submission` at concrete inputs. -/
theorem C5_witness :
    (tick cfgLiveDb stStandby inpNoLock).2 = [] ∧
    ([(cfgLiveDb, stStandby, inpNoLock)].countP
      (fun x => !(tick x.1 x.2.1 x.2.2).2.isEmpty) ≤ 1) := by
  constructor
  · exact C5_leader_exclusive_submission.1 cfgLiveDb stStandby inpNoLock rfl
      (by norm_num [tick, cfgLiveDb, stStandby, inpNoLock])
  · refine C5_leader_exclusive_submission.2 [(cfgLiveDb, stStandby, inpNoLock)]
      ?_ ?_
    · intro x hx
      simp only [List.mem_singleton] at hx
      subst hx
      rfl
    · norm_num [List.countP_cons, List.countP_nil, tick, cfgLiveDb,
        stStandby, inpNoLock]

/-- C6 (corrected): the engine has no bar-timestamp replay guard (it polls
the latest trade/quote and only skips a tick when no price is available);
replay idempotence holds only in the limited form that after the first buy
of a group at price `p`, with positive step sizes, re-evaluating the buy
gate at the same price `p` does not fire another buy. -/
theorem C6_first_buy_same_price_no_rebuy (gs : GridState) (p ss si : ℚ)
    (ts : Int) (h0 : gs.last_trigger_price = none)
    (hss : 0 < ss) (hsi : 0 ≤ si) :
    should_buy_now p (on_buy_filled p gs ss si ts) ss si ts = false := by
  have hstep := current_step_usd_pos ss si ts (gs.buy_count_in_group + 1)
    hss hsi
  simp only [on_buy_filled, h0, should_buy_now, next_trigger_price,
    decide_eq_false_iff_not]
  linarith

/-- C6 counterexample: with a zero-step configuration, replaying the very
same 100.00 price changes the engine state again — the second processing
executes a second buy, so repeated processing is not idempotent and no
timestamp guard prevents it. -/
theorem C6_counterexample :
    inpBarFirst.price = inpBarReplay.price ∧
    stAfterFirstBar.gs.buy_count_in_group = 1 ∧
    (tick cfgZeroStep stAfterFirstBar inpBarReplay).1.gs.buy_count_in_group
      = 2 := by
  refine ⟨rfl, ?_, ?_⟩ <;>
  norm_num [stAfterFirstBar, tick, posReconcile, sellStep, buyLoop,
    should_sell_now, should_buy_now, next_trigger_price, current_step_usd,
    check_buy_allowed, on_buy_filled, reset_group, GridState.empty,
    cfgZeroStep, stFresh, inpBarFirst, inpBarReplay, Int.fdiv]

/-- Witness for `C6_first_buy_same_price_no_rebuy` at concrete inputs. -/
theorem C6_witness :
    should_buy_now 100 (on_buy_filled 100 GridState.empty 1 1 5) 1 1 5 =
      false :=
  C6_first_buy_same_price_no_rebuy GridState.empty 100 1 1 5 rfl
    (by norm_num) (by norm_num)

/-- C7 (confirmed): whenever the kill switch is engaged, `check_buy_allowed`
denies with the KILL_SWITCH reason regardless of every other argument — the
kill-switch check is evaluated first, so its reason always wins. -/
theorem C7_kill_switch_reason_wins (bt mbt bd mbd oq : Int) (ep mdpb : ℚ)
    (cpq mpq : Int) (n : Int) (s e : Option Int) :
    check_buy_allowed true bt mbt bd mbd oq ep mdpb cpq mpq n s e =
      ⟨false, "KILL_SWITCH"⟩ := rfl

/-- C8 (confirmed): with positive base step and non-negative increment, the
tiered step is non-decreasing in the completed-buy count, and a buy after
the first (a rung is present) moves the rung down by exactly the current
step, strictly decreasing it. -/
theorem C8_step_monotone_rung_decreases (ss si : ℚ) (ts : Int)
    (gs : GridState) (p t : ℚ) (n m : Int)
    (hss : 0 < ss) (hsi : 0 ≤ si) (hnm : n ≤ m)
    (ht : gs.last_trigger_price = some t) :
    current_step_usd ss si ts n ≤ current_step_usd ss si ts m ∧
    (on_buy_filled p gs ss si ts).last_trigger_price =
      some (t - current_step_usd ss si ts gs.buy_count_in_group) ∧
    t - current_step_usd ss si ts gs.buy_count_in_group < t := by
  refine ⟨current_step_usd_mono ss si ts hsi hnm, ?_, ?_⟩
  · simp only [on_buy_filled, ht]
  · have := current_step_usd_pos ss si ts gs.buy_count_in_group hss hsi
    linarith

/-- Witness for `C8_step_monotone_rung_decreases` at concrete inputs. -/
theorem C8_witness :
    current_step_usd 1 1 5 1 ≤ current_step_usd 1 1 5 6 ∧
    (on_buy_filled 99 gsOneBuy 1 1 5).last_trigger_price =
      some (100 - current_step_usd 1 1 5 1) ∧
    100 - current_step_usd 1 1 5 1 < 100 :=
  C8_step_monotone_rung_decreases 1 1 5 gsOneBuy 99 100 1 6
    (by norm_num) (by norm_num) (by norm_num) rfl

/-- C9 (confirmed): saving clears the legacy `grid_last_trigger` key and
writes no rung; the boot-time `GridState` always has
`last_trigger_price = none`; hence after any restart the first
`should_buy_now` returns true at every price, whatever the restored
`buy_count_in_group`. -/
theorem C9_trigger_not_persisted (st : PersistedState) (gs : GridState)
    (p ss si : ℚ) (ts : Int) :
    (saveGrid gs st).grid_last_trigger = none ∧
    (loadGrid st).last_trigger_price = none ∧
    should_buy_now p (loadGrid st) ss si ts = true :=
  ⟨rfl, rfl, rfl⟩

/-- C10 (confirmed): `current_step_usd` is total — a tier size ≤ 0 is
replaced by 5, a non-positive count is treated as 0, and the result is
always step_start + step_increment * (count // effective tier size). -/
theorem C10_current_step_total (ss si : ℚ) (ts c : Int) :
    (ts ≤ 0 → current_step_usd ss si ts c = current_step_usd ss si 5 c) ∧
    (c ≤ 0 → current_step_usd ss si ts c = current_step_usd ss si ts 0) ∧
    current_step_usd ss si ts c = ss + si *
      ((Int.fdiv (if c ≤ 0 then 0 else c)
        (if 0 < ts then ts else 5) : Int) : ℚ) := by
  refine ⟨?_, ?_, rfl⟩
  · intro hts
    simp only [current_step_usd]
    rw [if_neg (by omega : ¬(0:Int) < ts), if_pos (by norm_num : (0:Int) < 5)]
  · intro hc
    simp only [current_step_usd]
    rw [if_pos hc, if_pos (le_refl (0:Int))]

/-- Witness for `C10_current_step_total` at concrete inputs. -/
theorem C10_witness :
    current_step_usd 2 1 (-2) 7 = current_step_usd 2 1 5 7 ∧
    current_step_usd 2 1 5 (-3) = current_step_usd 2 1 5 0 ∧
    current_step_usd 2 1 5 7 = 2 + 1 *
      ((Int.fdiv (if (7:Int) ≤ 0 then 0 else 7)
        (if (0:Int) < 5 then 5 else 5) : Int) : ℚ) :=
  ⟨(C10_current_step_total 2 1 (-2) 7).1 (by norm_num),
   (C10_current_step_total 2 1 5 (-3)).2.1 (by norm_num),
   (C10_current_step_total 2 1 5 7).2.2⟩
